import Mathlib

/-!
# Multi pay-invoice handler and session guard

A shallow embedding of `HandleMultiPayInvoiceEvent`
(`handle_multi_pay_invoice_request.go`), followed by one of the session guard
and the unlock handler of the HTTP service (`http_service.go`).

The handler starts one goroutine per invoice element and waits for all of
them.  Every externally visible action of a goroutine (a log line, a
permission check, a published reply, a database write, a call of the
Lightning backend) is recorded as an `Effect`; the handler's behaviour is the
list of `Event`s (goroutine index and effect) in the order a scheduler lets
them happen.  The results of the collaborators (`checkPermission`,
`db.Create`, `SendPaymentSync`, `db.Save`) are supplied per goroutine by an
`Outcomes` record, the library functions `strings.ToLower` and
`decodepay.Decodepay` by an `Env` record.
-/

namespace Hub

/-! ## Data model -/

/-- Modelled from the spec: the constant `NIP_47_ERROR_INTERNAL`, declared in a
file of the repository other than the handler's; section 6 of the spec lists
the error code `INTERNAL`. -/
def NIP_47_ERROR_INTERNAL : String := "INTERNAL"

/-- The value of `nostr.Tags`: a list of tags, each a list of strings. -/
abbrev Tags := List (List String)

/-- Modelled from the spec: the type `Nip47Error` (`error?: {code, message}`),
declared outside the handler's file. -/
structure Nip47Error where
  Code : String
  Message : String
deriving DecidableEq, Repr

/-- Modelled from the spec: the type `Nip47PayResponse` (reply `{preimage}`),
declared outside the handler's file. -/
structure Nip47PayResponse where
  Preimage : String
deriving DecidableEq, Repr

/-- Modelled from the spec: the type `Nip47Response`
(`{result_type, error?, result?}`), declared outside the handler's file. A nil
`Error` pointer and an unset `Result` are `none`. -/
structure Nip47Response where
  ResultType : String
  Error : Option Nip47Error
  Result : Option Nip47PayResponse
deriving DecidableEq, Repr

/-- Modelled from the spec: the type `Nip47Request` (`{method, params}`); the
handler reads only `Method`. -/
structure Nip47Request where
  Method : String
deriving DecidableEq, Repr

/-- Modelled from the spec: the type `RequestEvent`; the handler reads its
primary key `ID` and its `NostrId`. -/
structure RequestEvent where
  ID : Nat
  NostrId : String
deriving DecidableEq, Repr

/-- Modelled from the spec: the type `App`; the handler reads its primary key
`ID` and copies the record into the `Payment`. -/
structure App where
  ID : Nat
deriving DecidableEq, Repr

/-- Modelled from the spec: the type `Nip47MultiPayInvoiceElement`
(`{id?, invoice, amount?}`); an absent `id` is the empty string. -/
structure Nip47MultiPayInvoiceElement where
  Id : String
  Invoice : String
  Amount : Option Nat
deriving DecidableEq, Repr

/-- Modelled from the spec: the type `Nip47MultiPayInvoiceParams`
(`invoices: [...]`). -/
structure Nip47MultiPayInvoiceParams where
  Invoices : List Nip47MultiPayInvoiceElement
deriving DecidableEq, Repr

/-- The fields of `decodepay.Bolt11` the handler reads; `MSatoshi` is an
`int64`. -/
structure Bolt11 where
  PaymentHash : String
  MSatoshi : Int
deriving DecidableEq, Repr

/-- Modelled from the spec: the type `Payment`
(App, RequestEventId, BOLT-11 string, amount-sats, preimage?); `Amount` is a
`uint`, `Preimage` a nullable string. The primary key and the timestamps the
database fills in are left out. -/
structure Payment where
  App : App
  RequestEventId : Nat
  PaymentRequest : String
  Amount : Nat
  Preimage : Option String
deriving DecidableEq, Repr

/-- A value of a structured log field or of an analytics property. -/
inductive FieldValue where
  | str (s : String)
  | uint (n : Nat)
  | int (i : Int)
  | bool (b : Bool)
deriving DecidableEq, Repr

/-- The externally visible actions of the handler. -/
inductive Effect where
  /-- The call `svc.Logger.WithFields(fields).Errorf(...)`, with the formatted message. -/
  | logError (fields : List (String × FieldValue)) (msg : String)
  /-- The call `svc.Logger.WithFields(fields).Info(...)` or `Infof(...)`. -/
  | logInfo (fields : List (String × FieldValue)) (msg : String)
  /-- The call `svc.EventLogger.Log(ctx, &events.Event{...})`. -/
  | eventLog (event : String) (properties : List (String × FieldValue))
  /-- The call `svc.checkPermission(request, requestEvent, app, msats)`. -/
  | checkPermission (msats : Int)
  /-- The call `publishResponse(resp, tags)`. -/
  | publishResponse (resp : Nip47Response) (tags : Tags)
  /-- The call `svc.db.Create(&payment)`. -/
  | dbCreate (payment : Payment)
  /-- The call `svc.db.Save(&payment)`. -/
  | dbSave (payment : Payment)
  /-- The call `svc.lnClient.SendPaymentSync(ctx, bolt11)`. -/
  | sendPaymentSync (bolt11 : String)
deriving DecidableEq, Repr

/-- An effect together with the goroutine performing it: `some i` is the
goroutine started for the `i`-th invoice element, `none` the calling
goroutine. -/
structure Event where
  goroutine : Option Nat
  effect : Effect
deriving DecidableEq, Repr

/-- The library functions the handler calls: `strings.ToLower` and
`decodepay.Decodepay` (an error is represented by its text). -/
structure Env where
  ToLower : String → String
  Decodepay : String → Except String Bolt11

/-- What the collaborators answer to one goroutine: `checkPermission` a denial
response or nil, `db.Create` an error text or nil, `SendPaymentSync` a
preimage or an error text, `db.Save` an error text or nil (the handler
discards the result of `Save`). -/
structure Outcomes where
  checkPermission : Int → Option Nip47Response
  dbCreate : Payment → Option String
  sendPaymentSync : String → Except String String
  dbSave : Payment → Option String

/-! ## The handler -/

/-- The conversion `uint(paymentRequest.MSatoshi / 1000)`: `int64` division
truncates towards zero, the conversion to `uint` wraps modulo `2^64`. -/
def paymentAmount (msats : Int) : Nat :=
  ((Int.tdiv msats 1000) % (2 ^ 64 : Int)).toNat

/-- The body of the goroutine started for one invoice element (lines 33-132),
as the list of its effects in program order. -/
def invoiceGoroutine (env : Env) (o : Outcomes) (request : Nip47Request)
    (requestEvent : RequestEvent) (app : App)
    (invoiceInfo : Nip47MultiPayInvoiceElement) : List Effect :=
  let bolt11 := env.ToLower invoiceInfo.Invoice
  match env.Decodepay bolt11 with
  | .error err =>
    [ .logError [("eventId", .str requestEvent.NostrId), ("appId", .uint app.ID),
        ("bolt11", .str bolt11)] ("Failed to decode bolt11 invoice: " ++ err),
      .publishResponse
        { ResultType := request.Method,
          Error := some { Code := NIP_47_ERROR_INTERNAL,
                          Message := "Failed to decode bolt11 invoice: " ++ err },
          Result := none }
        [["d", invoiceInfo.Id]] ]
  | .ok paymentRequest =>
    let invoiceDTagValue :=
      if invoiceInfo.Id = "" then paymentRequest.PaymentHash else invoiceInfo.Id
    let dTag := ["d", invoiceDTagValue]
    let payment : Payment :=
      { App := app, RequestEventId := requestEvent.ID, PaymentRequest := bolt11,
        Amount := paymentAmount paymentRequest.MSatoshi, Preimage := none }
    [Effect.checkPermission paymentRequest.MSatoshi] ++
    (match o.checkPermission paymentRequest.MSatoshi with
      | some resp => [Effect.publishResponse resp [dTag]]
      | none => []) ++
    [Effect.dbCreate payment] ++
    (match o.dbCreate payment with
      | some insertError =>
        [ .logError [("eventId", .str requestEvent.NostrId), ("paymentRequest", .str bolt11),
            ("invoiceId", .str invoiceInfo.Id)] ("Failed to process event: " ++ insertError) ]
      | none =>
        [ .logInfo [("eventId", .str requestEvent.NostrId), ("appId", .uint app.ID),
            ("bolt11", .str bolt11)] "Sending payment",
          .sendPaymentSync bolt11 ] ++
        (match o.sendPaymentSync bolt11 with
          | .error err =>
            [ .logInfo [("eventId", .str requestEvent.NostrId), ("appId", .uint app.ID),
                ("bolt11", .str bolt11)] ("Failed to send payment: " ++ err),
              .eventLog "nwc_payment_failed"
                [("error", .str err), ("multi", .bool true), ("invoice", .str bolt11),
                 ("amount", .int (Int.tdiv paymentRequest.MSatoshi 1000))],
              .publishResponse
                { ResultType := request.Method,
                  Error := some { Code := NIP_47_ERROR_INTERNAL, Message := err },
                  Result := none }
                [dTag] ]
          | .ok preimage =>
            [ .dbSave { payment with Preimage := some preimage },
              .eventLog "nwc_payment_succeeded"
                [("multi", .bool true), ("amount", .int (Int.tdiv paymentRequest.MSatoshi 1000))],
              .publishResponse
                { ResultType := request.Method,
                  Error := none,
                  Result := some { Preimage := preimage } }
                [dTag] ]))

/-- The scheduler: `pending i` is what goroutine `i` still has to do. Each
entry of the schedule lets the named goroutine perform its next effect (an
entry naming a finished goroutine is skipped); when the schedule is used up,
the goroutines that are left run to completion one after the other, which is
what `wg.Wait()` waits for. -/
def runSchedule (n : Nat) (pending : Nat → List Effect) : List Nat → List Event
  | [] => (List.range n).flatMap fun i => (pending i).map (Event.mk (some i))
  | i :: sched =>
    match pending i with
    | [] => runSchedule n pending sched
    | e :: rest =>
      ⟨some i, e⟩ :: runSchedule n (fun k => if k = i then rest else pending k) sched

/-- The work of the goroutines of a request: goroutine `i` handles the `i`-th
element with the outcomes `outcomes i`. -/
def goroutines (env : Env) (outcomes : Nat → Outcomes) (request : Nip47Request)
    (requestEvent : RequestEvent) (app : App)
    (multiPayParams : Nip47MultiPayInvoiceParams) (i : Nat) : List Effect :=
  match multiPayParams.Invoices[i]? with
  | some invoiceInfo => invoiceGoroutine env (outcomes i) request requestEvent app invoiceInfo
  | none => []

/-- The handler `HandleMultiPayInvoiceEvent`. `resp` is what
`svc.unmarshalRequest` returned (nil when the params were parsed into
`multiPayParams`); `sched` is the interleaving of the goroutines. The result is
the trace of events up to the handler's return (its return value is always
nil). -/
def HandleMultiPayInvoiceEvent (env : Env) (outcomes : Nat → Outcomes) (sched : List Nat)
    (request : Nip47Request) (requestEvent : RequestEvent) (app : App)
    (resp : Option Nip47Response) (multiPayParams : Nip47MultiPayInvoiceParams) :
    List Event :=
  match resp with
  | some r =>
    [ ⟨none, .logError [("eventId", .str requestEvent.NostrId)]
        "Failed to process event: <nil>"⟩,
      ⟨none, .publishResponse r []⟩ ]
  | none =>
    runSchedule multiPayParams.Invoices.length
      (goroutines env outcomes request requestEvent app multiPayParams) sched

/-! ## Observations on a trace -/

/-- The effects of goroutine `i` in a trace, in order. -/
def effectsOf (i : Nat) (trace : List Event) : List Effect :=
  (trace.filter fun ev => ev.goroutine == some i).map Event.effect

/-- The replies published in a list of effects. -/
def replies (effects : List Effect) : List (Nip47Response × Tags) :=
  effects.filterMap fun
    | .publishResponse resp tags => some (resp, tags)
    | _ => none

/-- The Payment records passed to `db.Create` in a list of effects. -/
def creates (effects : List Effect) : List Payment :=
  effects.filterMap fun
    | .dbCreate payment => some payment
    | _ => none

/-- The Payment records passed to `db.Save` in a list of effects. -/
def saves (effects : List Effect) : List Payment :=
  effects.filterMap fun
    | .dbSave payment => some payment
    | _ => none

/-- The invoices passed to `SendPaymentSync` in a list of effects. -/
def backendCalls (effects : List Effect) : List String :=
  effects.filterMap fun
    | .sendPaymentSync bolt11 => some bolt11
    | _ => none

/-- The number of `publishResponse` calls in a trace. -/
def publishCount (trace : List Event) : Nat :=
  (replies (trace.map Event.effect)).length

/-! ## Concrete inputs -/

/-- ASCII lower-casing, enough for BOLT-11 strings. -/
def asciiToLower (s : String) : String :=
  String.mk (s.data.map Char.toLower)

/-- A decoder for the examples: the invoice `lnbc10n1ok` decodes to 1000 msat
with payment hash `hash1`, `lnbc20n1fail` to 2000 msat with payment hash
`hash2`; anything else is rejected. -/
def exampleEnv : Env where
  ToLower := asciiToLower
  Decodepay := fun s =>
    if s = "lnbc10n1ok" then .ok { PaymentHash := "hash1", MSatoshi := 1000 }
    else if s = "lnbc20n1fail" then .ok { PaymentHash := "hash2", MSatoshi := 2000 }
    else .error "invalid bech32 string"

def exampleRequest : Nip47Request := { Method := "multi_pay_invoice" }

def exampleRequestEvent : RequestEvent := { ID := 7, NostrId := "ev1" }

def exampleApp : App := { ID := 3 }

/-- The denial response of a permission check over budget. -/
def quotaExceeded : Nip47Response :=
  { ResultType := "multi_pay_invoice",
    Error := some { Code := "QUOTA_EXCEEDED", Message := "Insufficient budget remaining" },
    Result := none }

/-- Permission granted, insert succeeds, backend pays invoices containing `ok`
and fails on the others. -/
def allowOutcomes : Outcomes where
  checkPermission := fun _ => none
  dbCreate := fun _ => none
  sendPaymentSync := fun s =>
    if s = "lnbc10n1ok" then .ok "abcd" else .error "no route"
  dbSave := fun _ => none

/-- Permission denied (quota exceeded); the database and the backend work. -/
def denyOutcomes : Outcomes where
  checkPermission := fun _ => some quotaExceeded
  dbCreate := fun _ => none
  sendPaymentSync := fun _ => .ok "abcd"
  dbSave := fun _ => none

/-- Permission denied and the Payment insert fails. -/
def denyInsertFailsOutcomes : Outcomes where
  checkPermission := fun _ => some quotaExceeded
  dbCreate := fun _ => some "database is locked"
  sendPaymentSync := fun _ => .ok "abcd"
  dbSave := fun _ => none


/-- The effects that follow the call of `SendPaymentSync` in a list of
effects (none when the backend is not called). -/
def afterBackendCall : List Effect → List Effect
  | [] => []
  | .sendPaymentSync _ :: rest => rest
  | _ :: rest => afterBackendCall rest

/-- The Payment records written to the database in a list of effects, by
`db.Create` or by `db.Save`, in order. -/
def writes (effects : List Effect) : List Payment :=
  effects.filterMap fun
    | .dbCreate payment => some payment
    | .dbSave payment => some payment
    | _ => none

/-- The record `payment` is passed to `db.Create` before the first call of
`SendPaymentSync` in a list of effects. -/
def createBeforeSend (payment : Payment) : List Effect → Bool
  | [] => false
  | .dbCreate created :: rest =>
    if created = payment then true else createBeforeSend payment rest
  | .sendPaymentSync _ :: _ => false
  | _ :: rest => createBeforeSend payment rest

/-! ## The contract on the `d` tag -/

/-- The value the contract gives the `d` tag of a reply to an element: the
element's id when it is non-empty, otherwise the payment hash of the decoded
invoice; there is none when the id is empty and the invoice does not decode. -/
def specDTagValue (env : Env) (invoiceInfo : Nip47MultiPayInvoiceElement) : Option String :=
  if invoiceInfo.Id ≠ "" then some invoiceInfo.Id
  else
    match env.Decodepay (env.ToLower invoiceInfo.Invoice) with
    | .ok paymentRequest => some paymentRequest.PaymentHash
    | .error _ => none

/-- The tags of a reply are exactly one `d` tag with the value of the
contract. -/
def TagsAsSpecified (env : Env) (invoiceInfo : Nip47MultiPayInvoiceElement)
    (tags : Tags) : Prop :=
  ∃ v, specDTagValue env invoiceInfo = some v ∧ tags = [["d", v]]

/-! ## The amount of an element -/

/-- The amounts passed to `checkPermission` in a list of effects. -/
def permissionChecks (effects : List Effect) : List Int :=
  effects.filterMap fun
    | .checkPermission msats => some msats
    | _ => none

/-- The amount in millisatoshi the contract gives an element: the amount of the
decoded invoice, except that for a zero-amount invoice the `amount` param of
the element, when present, takes its place. -/
def specMsats (paymentRequest : Bolt11) (invoiceInfo : Nip47MultiPayInvoiceElement) : Int :=
  if paymentRequest.MSatoshi = 0 then
    match invoiceInfo.Amount with
    | some amount => (amount : Int)
    | none => paymentRequest.MSatoshi
  else paymentRequest.MSatoshi

/-- A decoder for the examples that knows one zero-amount invoice,
`lnbc1zero`, with payment hash `hash0`. -/
def zeroAmountEnv : Env where
  ToLower := asciiToLower
  Decodepay := fun s =>
    if s = "lnbc1zero" then .ok { PaymentHash := "hash0", MSatoshi := 0 }
    else .error "invalid bech32 string"

/-- Permission granted, insert succeeds, the backend pays every invoice with
preimage `abcd`, and every `db.Save` fails. -/
def saveFailsOutcomes : Outcomes where
  checkPermission := fun _ => none
  dbCreate := fun _ => none
  sendPaymentSync := fun _ => .ok "abcd"
  dbSave := fun _ => some "database is locked"

/-! ## The HTTP service

A shallow embedding of `validateUserMiddleware`, `isUnlocked`, `unlockHandler`
and `saveSessionCookie` (`http_service.go`). A handler transforms the state of
an HTTP exchange (the echo context with its sessions and its response, and the
logs of the service) and returns an error or nil.
-/

/-- The name of the session cookie. -/
def sessionCookieName : String := "session"

/-- The session key under which the unlocked state is kept. -/
def sessionCookieAuthKey : String := "authenticated"

/-- The constant `http.StatusNoContent`. -/
def StatusNoContent : Nat := 204

/-- The constant `http.StatusBadRequest`. -/
def StatusBadRequest : Nat := 400

/-- The constant `http.StatusUnauthorized`. -/
def StatusUnauthorized : Nat := 401

/-- The constant `http.StatusInternalServerError`. -/
def StatusInternalServerError : Nat := 500

/-- A value stored in a session (`interface{}`): a boolean, or something
else. -/
inductive SessionValue where
  | bool (b : Bool)
  | str (s : String)
  | int (i : Int)
deriving DecidableEq, Repr

/-- The fields of `sessions.Options` the service sets. -/
structure SessionOptions where
  Path : String
  MaxAge : Int
  HttpOnly : Bool
deriving DecidableEq, Repr

/-- A `sessions.Session`: the map `Values` as an association list, and the
cookie options. -/
structure Session where
  Values : List (String × SessionValue)
  Options : SessionOptions
deriving DecidableEq, Repr

/-- The body `models.ErrorResponse` of an error reply. -/
structure ErrorResponse where
  Message : String
deriving DecidableEq, Repr

/-- An HTTP response: the status and the JSON body, `none` for no content. -/
structure Response where
  Status : Nat
  Body : Option ErrorResponse
deriving DecidableEq, Repr

/-- The request body of `POST /api/unlock` after binding
(`api.UnlockRequest`). -/
structure UnlockRequest where
  UnlockPassword : String
deriving DecidableEq, Repr

/-- The `echo.Context` of an exchange: the request body, the sessions of the
request by name, the response written so far and the session cookies set by
`sess.Save`. -/
structure Context where
  body : String
  sessions : List (String × Session)
  response : Option Response
  cookies : List (String × Session)
deriving DecidableEq, Repr

/-- The state a handler works on: the context of the exchange, the lines of
`svc.Logger` (error text and message) and the events of `svc.EventLogger`. -/
structure HttpState where
  c : Context
  Logger : List (String × String)
  EventLogger : List String
deriving DecidableEq, Repr

/-- An `echo.HandlerFunc`: the state after the handler and the error it
returns. -/
abbrev HandlerFunc := HttpState → HttpState × Option String

/-- What the handlers of the HTTP service call outside this file: `c.Bind` on
the request body, `cfg.CheckUnlockPassword`, and `sess.Save` (an error text or
nil). -/
structure HttpEnv where
  Bind : String → Except String UnlockRequest
  CheckUnlockPassword : String → Bool
  Save : Session → Option String

/-- The call `c.NoContent(code)`: the response is the status without a body. -/
def NoContent (code : Nat) (st : HttpState) : HttpState × Option String :=
  ({ st with c := { st.c with response := some { Status := code, Body := none } } }, none)

/-- The call `c.JSON(code, models.ErrorResponse{...})`. -/
def JSON (code : Nat) (body : ErrorResponse) (st : HttpState) : HttpState × Option String :=
  ({ st with c := { st.c with response := some { Status := code, Body := some body } } }, none)

/-- A session the cookie store creates for a name it has no session for: no
values, the default options of the store. -/
def newSession : Session :=
  { Values := [], Options := { Path := "/", MaxAge := 86400 * 30, HttpOnly := false } }

/-- The call `session.Get(name, c)`, its error dropped as the callers do. -/
def sessionGet (name : String) (c : Context) : Session :=
  (c.sessions.lookup name).getD newSession

/-- The assignment `sess.Values[key] = value` on the map of a session. -/
def setValue (key : String) (value : SessionValue)
    (values : List (String × SessionValue)) : List (String × SessionValue) :=
  (key, value) :: values.filter fun kv => kv.1 != key

/-- The session `sess` obtained under `name` after it has been modified in
place. -/
def putSession (name : String) (sess : Session) (c : Context) : Context :=
  { c with sessions := (name, sess) :: c.sessions.filter fun ns => ns.1 != name }

/-- The function `isUnlocked` (lines 225-228). -/
def isUnlocked (c : Context) : Bool :=
  let sess := sessionGet sessionCookieName c
  decide (sess.Values.lookup sessionCookieAuthKey = some (.bool true))

/-- The function `validateUserMiddleware` (lines 42-49). -/
def validateUserMiddleware (next : HandlerFunc) : HandlerFunc := fun st =>
  if !isUnlocked st.c then
    NoContent StatusUnauthorized st
  else
    next st

/-- The function `saveSessionCookie` (lines 230-243). -/
def saveSessionCookie (env : HttpEnv) (st : HttpState) : HttpState × Option String :=
  let sess := sessionGet "session" st.c
  let sess := { sess with Options := { Path := "/", MaxAge := 86400 * 7, HttpOnly := true } }
  let sess := { sess with Values := setValue sessionCookieAuthKey (.bool true) sess.Values }
  let st := { st with c := putSession "session" sess st.c }
  match env.Save sess with
  | some err =>
    ({ st with Logger := st.Logger ++ [(err, "Failed to save session")] }, some err)
  | none =>
    ({ st with c := { st.c with cookies := st.c.cookies ++ [("session", sess)] } }, none)

/-- The function `unlockHandler` (lines 178-205). -/
def unlockHandler (env : HttpEnv) : HandlerFunc := fun st =>
  match env.Bind st.c.body with
  | .error err => JSON StatusBadRequest { Message := "Bad request: " ++ err } st
  | .ok unlockRequest =>
    if !env.CheckUnlockPassword unlockRequest.UnlockPassword then
      JSON StatusUnauthorized { Message := "Invalid password" } st
    else
      match saveSessionCookie env st with
      | (st, some err) =>
        JSON StatusInternalServerError { Message := "Failed to save session: " ++ err } st
      | (st, none) =>
        NoContent StatusNoContent { st with EventLogger := st.EventLogger ++ ["nwc_unlocked"] }

/-- An environment for the examples: the body binds to the password it holds
unless it is empty, the unlock password is `hunter2`, saving a session
succeeds. -/
def exampleHttpEnv : HttpEnv where
  Bind := fun body => if body = "" then .error "EOF" else .ok { UnlockPassword := body }
  CheckUnlockPassword := fun password => password == "hunter2"
  Save := fun _ => none

/-- An exchange without a session: the service is locked for it. -/
def lockedState (body : String) : HttpState :=
  { c := { body := body, sessions := [], response := none, cookies := [] },
    Logger := [], EventLogger := [] }

/-- An exchange whose session holds `authenticated = true`. -/
def unlockedState : HttpState :=
  { c := { body := "", response := none, cookies := [],
           sessions := [("session",
             { Values := [("authenticated", .bool true)],
               Options := { Path := "/", MaxAge := 604800, HttpOnly := true } })] },
    Logger := [], EventLogger := [] }

/-- A handler for the examples: it answers 204 and logs an event. -/
def exampleNext : HandlerFunc := fun st =>
  NoContent StatusNoContent { st with EventLogger := st.EventLogger ++ ["handled"] }

/-! ## The scheduler -/

/-- The events of the goroutines left when the schedule is used up. -/
theorem runSchedule_nil (n : Nat) (pending : Nat → List Effect) :
    runSchedule n pending [] =
      (List.range n).flatMap fun i => (pending i).map (Event.mk (some i)) := rfl

theorem effectsOf_cons_same (i : Nat) (e : Effect) (t : List Event) :
    effectsOf i (⟨some i, e⟩ :: t) = e :: effectsOf i t := by
  simp [effectsOf]

theorem effectsOf_cons_other {i k : Nat} (h : k ≠ i) (e : Effect) (t : List Event) :
    effectsOf i (⟨some k, e⟩ :: t) = effectsOf i t := by
  simp [effectsOf, h]

theorem effectsOf_append (i : Nat) (a b : List Event) :
    effectsOf i (a ++ b) = effectsOf i a ++ effectsOf i b := by
  simp [effectsOf]

theorem effectsOf_map_mk (i k : Nat) (l : List Effect) :
    effectsOf i (l.map (Event.mk (some k))) = if k = i then l else [] := by
  induction l with
  | nil => simp [effectsOf]
  | cons e l ih =>
    by_cases h : k = i
    · subst h
      simp only [List.map_cons, effectsOf_cons_same, ih, if_true]
    · simp only [List.map_cons, effectsOf_cons_other h, ih, if_neg h]

theorem effectsOf_drain (n : Nat) (pending : Nat → List Effect) (i : Nat) :
    effectsOf i ((List.range n).flatMap fun k => (pending k).map (Event.mk (some k))) =
      if i < n then pending i else [] := by
  induction n with
  | zero => simp [effectsOf]
  | succ n ih =>
    rw [List.range_succ, List.flatMap_append, effectsOf_append, ih]
    simp only [List.flatMap_cons, List.flatMap_nil, List.append_nil, effectsOf_map_mk]
    by_cases h1 : i < n
    · have h2 : n ≠ i := by omega
      have h3 : i < n + 1 := by omega
      simp [h1, h2, h3]
    · by_cases h2 : n = i
      · subst h2
        simp
      · have h3 : ¬ i < n + 1 := by omega
        simp [h1, h2, h3]

/-- Whatever the schedule, the events of goroutine `i` in the trace are the
effects of its body, in program order. -/
theorem effectsOf_runSchedule (n : Nat) (sched : List Nat) :
    ∀ (pending : Nat → List Effect), (∀ k, n ≤ k → pending k = []) →
      ∀ i, effectsOf i (runSchedule n pending sched) = pending i := by
  induction sched with
  | nil =>
    intro pending h i
    rw [runSchedule_nil, effectsOf_drain]
    by_cases hi : i < n
    · simp [hi]
    · simp [hi, h i (by omega)]
  | cons j sched ih =>
    intro pending h i
    unfold runSchedule
    split
    · exact ih pending h i
    · rename_i e rest hj
      have h2 : ∀ k, n ≤ k → (fun k => if k = j then rest else pending k) k = [] := by
        intro k hk
        by_cases hkj : k = j
        · subst hkj
          rw [h k hk] at hj
          cases hj
        · simp [hkj, h k hk]
      by_cases hji : j = i
      · subst hji
        rw [effectsOf_cons_same, ih _ h2 j, hj]
        simp
      · rw [effectsOf_cons_other hji, ih _ h2 i]
        have : i ≠ j := fun h => hji h.symm
        simp [this]


theorem mem_effectsOf (i : Nat) (e : Effect) (trace : List Event) :
    e ∈ effectsOf i trace ↔ (⟨some i, e⟩ : Event) ∈ trace := by
  simp only [effectsOf, List.mem_map, List.mem_filter, beq_iff_eq]
  constructor
  · rintro ⟨ev, ⟨hmem, hg⟩, rfl⟩
    cases ev with
    | mk g eff =>
      simp only at hg
      subst hg
      exact hmem
  · intro h
    exact ⟨⟨some i, e⟩, ⟨h, rfl⟩, rfl⟩

theorem drain_congr (n : Nat) (p q : Nat → List Effect) (h : ∀ k, k < n → p k = q k) :
    ((List.range n).flatMap fun k => (p k).map (Event.mk (some k))) =
      (List.range n).flatMap fun k => (q k).map (Event.mk (some k)) := by
  induction n with
  | zero => rfl
  | succ n ih =>
    rw [List.range_succ, List.flatMap_append, List.flatMap_append,
      ih (fun k hk => h k (by omega))]
    simp [h n (by omega)]

/-- Letting goroutine `i` perform its next effect first permutes the events of
a sequential run. -/
theorem drain_perm_step (n : Nat) (p : Nat → List Effect) (i : Nat) (e : Effect)
    (rest : List Effect) (hi : i < n) (hp : p i = e :: rest) :
    ((List.range n).flatMap fun k => (p k).map (Event.mk (some k))).Perm
      (⟨some i, e⟩ ::
        (List.range n).flatMap fun k =>
          ((fun k => if k = i then rest else p k) k).map (Event.mk (some k))) := by
  induction n with
  | zero => omega
  | succ n ih =>
    rw [List.range_succ, List.flatMap_append, List.flatMap_append]
    simp only [List.flatMap_cons, List.flatMap_nil, List.append_nil]
    by_cases h : i = n
    · subst h
      have hc := drain_congr i p (fun k => if k = i then rest else p k)
        (fun k hk => by
          have : k ≠ i := by omega
          simp [this])
      rw [← hc, hp]
      simp only [if_true, List.map_cons]
      exact List.perm_middle
    · have hlt : i < n := by omega
      have hn : n ≠ i := fun h2 => h h2.symm
      simp only [hn, if_false]
      exact (ih hlt).append_right _

/-- A scheduled run performs the same events as the sequential run of the
goroutines one after the other. -/
theorem runSchedule_perm (n : Nat) (sched : List Nat) :
    ∀ (pending : Nat → List Effect), (∀ k, n ≤ k → pending k = []) →
      (runSchedule n pending sched).Perm
        ((List.range n).flatMap fun k => (pending k).map (Event.mk (some k))) := by
  induction sched with
  | nil =>
    intro pending _
    exact List.Perm.refl _
  | cons j sched ih =>
    intro pending h
    unfold runSchedule
    split
    · exact ih pending h
    · rename_i e rest hj
      have hjn : j < n := by
        by_contra hcon
        rw [h j (by omega)] at hj
        cases hj
      have h2 : ∀ k, n ≤ k → (fun k => if k = j then rest else pending k) k = [] := by
        intro k hk
        have hkj : k ≠ j := by omega
        simp [hkj, h k hk]
      exact ((ih _ h2).cons _).trans (drain_perm_step n pending j e rest hjn hj).symm

/-! ## The handler, goroutine by goroutine -/

theorem goroutines_of_get (env : Env) (outcomes : Nat → Outcomes) (request : Nip47Request)
    (requestEvent : RequestEvent) (app : App) (params : Nip47MultiPayInvoiceParams)
    (i : Nat) (invoiceInfo : Nip47MultiPayInvoiceElement)
    (h : params.Invoices[i]? = some invoiceInfo) :
    goroutines env outcomes request requestEvent app params i =
      invoiceGoroutine env (outcomes i) request requestEvent app invoiceInfo := by
  simp [goroutines, h]

theorem goroutines_of_le (env : Env) (outcomes : Nat → Outcomes) (request : Nip47Request)
    (requestEvent : RequestEvent) (app : App) (params : Nip47MultiPayInvoiceParams)
    (k : Nat) (h : params.Invoices.length ≤ k) :
    goroutines env outcomes request requestEvent app params k = [] := by
  have : params.Invoices[k]? = none := List.getElem?_eq_none h
  simp [goroutines, this]

/-- In every interleaving the events of goroutine `i` are the effects of the
goroutine body on the `i`-th element. -/
theorem effectsOf_handle (env : Env) (outcomes : Nat → Outcomes) (sched : List Nat)
    (request : Nip47Request) (requestEvent : RequestEvent) (app : App)
    (params : Nip47MultiPayInvoiceParams) (i : Nat) :
    effectsOf i
        (HandleMultiPayInvoiceEvent env outcomes sched request requestEvent app none params) =
      goroutines env outcomes request requestEvent app params i :=
  effectsOf_runSchedule _ sched _
    (fun k hk => goroutines_of_le env outcomes request requestEvent app params k hk) i


theorem effectsOf_handle_get (env : Env) (outcomes : Nat → Outcomes) (sched : List Nat)
    (request : Nip47Request) (requestEvent : RequestEvent) (app : App)
    (params : Nip47MultiPayInvoiceParams) (i : Nat)
    (invoiceInfo : Nip47MultiPayInvoiceElement)
    (h : params.Invoices[i]? = some invoiceInfo) :
    effectsOf i
        (HandleMultiPayInvoiceEvent env outcomes sched request requestEvent app none params) =
      invoiceGoroutine env (outcomes i) request requestEvent app invoiceInfo := by
  rw [effectsOf_handle, goroutines_of_get _ _ _ _ _ _ _ _ h]

/-! ## Permission denial -/

/-- C1: evaluation at a request with one decodable element whose permission
check is denied: the goroutine publishes the denial reply and then goes on, it
inserts the Payment row, calls the backend and publishes a second, successful
reply. -/
theorem C1_denied_element_is_paid :
    replies (effectsOf 0
        (HandleMultiPayInvoiceEvent exampleEnv (fun _ => denyOutcomes) [] exampleRequest
          exampleRequestEvent exampleApp none ⟨[⟨"a", "lnbc10n1ok", none⟩]⟩)) =
      [ (quotaExceeded, [["d", "a"]]),
        ({ ResultType := "multi_pay_invoice", Error := none,
           Result := some { Preimage := "abcd" } }, [["d", "a"]]) ] ∧
    creates (effectsOf 0
        (HandleMultiPayInvoiceEvent exampleEnv (fun _ => denyOutcomes) [] exampleRequest
          exampleRequestEvent exampleApp none ⟨[⟨"a", "lnbc10n1ok", none⟩]⟩)) =
      [ { App := exampleApp, RequestEventId := 7, PaymentRequest := "lnbc10n1ok",
          Amount := 1, Preimage := none } ] ∧
    backendCalls (effectsOf 0
        (HandleMultiPayInvoiceEvent exampleEnv (fun _ => denyOutcomes) [] exampleRequest
          exampleRequestEvent exampleApp none ⟨[⟨"a", "lnbc10n1ok", none⟩]⟩)) =
      ["lnbc10n1ok"] := by
  decide

/-- C2: evaluation at a request with one element (N = 1) whose permission check
is denied while the database and the backend work: `publishResponse` is called
twice. -/
theorem C2_two_replies_for_one_element :
    (Nip47MultiPayInvoiceParams.mk [⟨"", "lnbc20n1fail", none⟩]).Invoices.length = 1 ∧
    publishCount
        (HandleMultiPayInvoiceEvent exampleEnv (fun _ => denyOutcomes) [0, 0, 0] exampleRequest
          exampleRequestEvent exampleApp none ⟨[⟨"", "lnbc20n1fail", none⟩]⟩) = 2 := by
  decide


/-! ## The `d` tag of a reply -/

/-- C3, as stated, fails at an element without id whose invoice does not
decode: its reply carries the tag `["d", ""]`, which is neither a non-empty id
nor the payment hash of a decoded invoice. -/
theorem C3_empty_tag_on_decode_failure :
    (⟨some 0, .publishResponse
        { ResultType := "multi_pay_invoice",
          Error := some { Code := "INTERNAL",
                          Message := "Failed to decode bolt11 invoice: invalid bech32 string" },
          Result := none }
        [["d", ""]]⟩ : Event) ∈
      HandleMultiPayInvoiceEvent exampleEnv (fun _ => allowOutcomes) [] exampleRequest
        exampleRequestEvent exampleApp none ⟨[⟨"", "zzz", none⟩]⟩ ∧
    ¬ TagsAsSpecified exampleEnv ⟨"", "zzz", none⟩ [["d", ""]] := by
  refine ⟨by decide, ?_⟩
  rintro ⟨v, hv, _⟩
  have hnone : specDTagValue exampleEnv ⟨"", "zzz", none⟩ = none := by decide
  rw [hnone] at hv
  cases hv

/-- C3, amended: every reply published for an element carries exactly one tag,
a `d` tag; when the element's invoice decodes its value is the element's id if
non-empty and the payment hash otherwise, and when the invoice does not decode
its value is the element's id, empty or not. -/
theorem C3_reply_tags (env : Env) (outcomes : Nat → Outcomes) (sched : List Nat)
    (request : Nip47Request) (requestEvent : RequestEvent) (app : App)
    (params : Nip47MultiPayInvoiceParams) (i : Nat)
    (invoiceInfo : Nip47MultiPayInvoiceElement) (resp : Nip47Response) (tags : Tags)
    (hget : params.Invoices[i]? = some invoiceInfo)
    (hmem : (⟨some i, .publishResponse resp tags⟩ : Event) ∈
      HandleMultiPayInvoiceEvent env outcomes sched request requestEvent app none params) :
    match env.Decodepay (env.ToLower invoiceInfo.Invoice) with
    | .ok paymentRequest =>
      tags = [["d", if invoiceInfo.Id ≠ "" then invoiceInfo.Id else paymentRequest.PaymentHash]]
    | .error _ => tags = [["d", invoiceInfo.Id]] := by
  rw [← mem_effectsOf, effectsOf_handle_get _ _ _ _ _ _ _ _ _ hget] at hmem
  unfold invoiceGoroutine at hmem
  cases hdec : env.Decodepay (env.ToLower invoiceInfo.Invoice) with
  | error err =>
    simp only [hdec] at hmem
    simp at hmem
    simp [hmem.2]
  | ok paymentRequest =>
    simp only [hdec] at hmem
    by_cases hid : invoiceInfo.Id = ""
    · cases hperm : (outcomes i).checkPermission paymentRequest.MSatoshi <;>
        cases hcreate : (outcomes i).dbCreate
          { App := app, RequestEventId := requestEvent.ID,
            PaymentRequest := env.ToLower invoiceInfo.Invoice,
            Amount := paymentAmount paymentRequest.MSatoshi, Preimage := none } <;>
        cases hsend : (outcomes i).sendPaymentSync (env.ToLower invoiceInfo.Invoice) <;>
        simp [hperm, hcreate, hsend, hid] at hmem ⊢ <;> tauto
    · cases hperm : (outcomes i).checkPermission paymentRequest.MSatoshi <;>
        cases hcreate : (outcomes i).dbCreate
          { App := app, RequestEventId := requestEvent.ID,
            PaymentRequest := env.ToLower invoiceInfo.Invoice,
            Amount := paymentAmount paymentRequest.MSatoshi, Preimage := none } <;>
        cases hsend : (outcomes i).sendPaymentSync (env.ToLower invoiceInfo.Invoice) <;>
        simp [hperm, hcreate, hsend, hid] at hmem ⊢ <;> tauto

/-- C3, amended, at the three-element request of scenario S4 (goroutine 1, the
element whose payment fails). -/
theorem C3_reply_tags_witness :
    match exampleEnv.Decodepay (exampleEnv.ToLower "lnbc20n1fail") with
    | .ok paymentRequest =>
      [["d", "b"]] = [["d", if ("b" : String) ≠ "" then "b" else paymentRequest.PaymentHash]]
    | .error _ => [["d", "b"]] = [["d", "b"]] :=
  C3_reply_tags exampleEnv (fun _ => allowOutcomes) [1, 0, 2, 2, 1, 0, 0] exampleRequest
    exampleRequestEvent exampleApp
    ⟨[⟨"a", "LNBC10N1OK", none⟩, ⟨"b", "lnbc20n1fail", none⟩, ⟨"", "zzz", none⟩]⟩ 1
    ⟨"b", "lnbc20n1fail", none⟩
    { ResultType := "multi_pay_invoice",
      Error := some { Code := "INTERNAL", Message := "no route" }, Result := none }
    [["d", "b"]] (by decide) (by decide)


/-! ## Decode failure -/

/-- C4: for an element whose lower-cased invoice fails to decode with error
`err`, the handler publishes exactly one reply for it, with the request's method
as result type, error code `INTERNAL` and message
`Failed to decode bolt11 invoice: ` followed by `err`; it creates no Payment row
and makes no backend call for the element. -/
theorem C4_decode_failure (env : Env) (outcomes : Nat → Outcomes) (sched : List Nat)
    (request : Nip47Request) (requestEvent : RequestEvent) (app : App)
    (params : Nip47MultiPayInvoiceParams) (i : Nat)
    (invoiceInfo : Nip47MultiPayInvoiceElement) (err : String)
    (hget : params.Invoices[i]? = some invoiceInfo)
    (hdec : env.Decodepay (env.ToLower invoiceInfo.Invoice) = .error err) :
    (replies (effectsOf i
        (HandleMultiPayInvoiceEvent env outcomes sched request requestEvent app none
          params))).map Prod.fst =
      [ { ResultType := request.Method,
          Error := some { Code := "INTERNAL",
                          Message := "Failed to decode bolt11 invoice: " ++ err },
          Result := none } ] ∧
    creates (effectsOf i
        (HandleMultiPayInvoiceEvent env outcomes sched request requestEvent app none
          params)) = [] ∧
    backendCalls (effectsOf i
        (HandleMultiPayInvoiceEvent env outcomes sched request requestEvent app none
          params)) = [] := by
  rw [effectsOf_handle_get _ _ _ _ _ _ _ _ _ hget]
  simp [invoiceGoroutine, hdec, replies, creates, backendCalls, NIP_47_ERROR_INTERNAL]

/-- C4 at the third element of scenario S4, whose invoice is malformed. -/
theorem C4_decode_failure_witness :
    (replies (effectsOf 2
        (HandleMultiPayInvoiceEvent exampleEnv (fun _ => allowOutcomes) [2, 0, 1, 1]
          exampleRequest exampleRequestEvent exampleApp none
          ⟨[⟨"a", "LNBC10N1OK", none⟩, ⟨"b", "lnbc20n1fail", none⟩,
            ⟨"c", "zzz", none⟩]⟩))).map Prod.fst =
      [ { ResultType := exampleRequest.Method,
          Error := some { Code := "INTERNAL",
                          Message := "Failed to decode bolt11 invoice: " ++
                            "invalid bech32 string" },
          Result := none } ] ∧
    creates (effectsOf 2
        (HandleMultiPayInvoiceEvent exampleEnv (fun _ => allowOutcomes) [2, 0, 1, 1]
          exampleRequest exampleRequestEvent exampleApp none
          ⟨[⟨"a", "LNBC10N1OK", none⟩, ⟨"b", "lnbc20n1fail", none⟩,
            ⟨"c", "zzz", none⟩]⟩)) = [] ∧
    backendCalls (effectsOf 2
        (HandleMultiPayInvoiceEvent exampleEnv (fun _ => allowOutcomes) [2, 0, 1, 1]
          exampleRequest exampleRequestEvent exampleApp none
          ⟨[⟨"a", "LNBC10N1OK", none⟩, ⟨"b", "lnbc20n1fail", none⟩,
            ⟨"c", "zzz", none⟩]⟩)) = [] :=
  C4_decode_failure exampleEnv (fun _ => allowOutcomes) [2, 0, 1, 1] exampleRequest
    exampleRequestEvent exampleApp
    ⟨[⟨"a", "LNBC10N1OK", none⟩, ⟨"b", "lnbc20n1fail", none⟩, ⟨"c", "zzz", none⟩]⟩ 2
    ⟨"c", "zzz", none⟩ "invalid bech32 string" (by decide) (by rfl)

/-! ## Backend failure -/

/-- C5: for an element whose Payment insert succeeds and whose call of
`SendPaymentSync` returns the error `err`, the goroutine publishes exactly one
reply after the backend call; it has error code `INTERNAL`, the message is
`err` unchanged, and it has no result. -/
theorem C5_backend_error_reply (env : Env) (outcomes : Nat → Outcomes) (sched : List Nat)
    (request : Nip47Request) (requestEvent : RequestEvent) (app : App)
    (params : Nip47MultiPayInvoiceParams) (i : Nat) (err : String)
    (_hcreate : ∃ payment,
      (⟨some i, .dbCreate payment⟩ : Event) ∈
        HandleMultiPayInvoiceEvent env outcomes sched request requestEvent app none params ∧
      (outcomes i).dbCreate payment = none)
    (hsend : ∃ bolt11,
      (⟨some i, .sendPaymentSync bolt11⟩ : Event) ∈
        HandleMultiPayInvoiceEvent env outcomes sched request requestEvent app none params ∧
      (outcomes i).sendPaymentSync bolt11 = .error err) :
    (replies (afterBackendCall (effectsOf i
        (HandleMultiPayInvoiceEvent env outcomes sched request requestEvent app none
          params)))).map Prod.fst =
      [ { ResultType := request.Method,
          Error := some { Code := "INTERNAL", Message := err },
          Result := none } ] := by
  obtain ⟨bolt11, hb, hberr⟩ := hsend
  rw [← mem_effectsOf, effectsOf_handle] at hb
  rw [effectsOf_handle]
  unfold goroutines at hb ⊢
  cases hget : params.Invoices[i]? with
  | none => simp [hget] at hb
  | some invoiceInfo =>
    simp only [hget] at hb ⊢
    unfold invoiceGoroutine at hb ⊢
    cases hdec : env.Decodepay (env.ToLower invoiceInfo.Invoice) with
    | error e => simp [hdec] at hb
    | ok paymentRequest =>
      simp only [hdec] at hb ⊢
      cases hperm : (outcomes i).checkPermission paymentRequest.MSatoshi <;>
        cases hc : (outcomes i).dbCreate
          { App := app, RequestEventId := requestEvent.ID,
            PaymentRequest := env.ToLower invoiceInfo.Invoice,
            Amount := paymentAmount paymentRequest.MSatoshi, Preimage := none } <;>
        cases hs : (outcomes i).sendPaymentSync (env.ToLower invoiceInfo.Invoice) <;>
        simp [hperm, hc, hs] at hb <;>
        subst hb <;>
        rw [hs] at hberr <;>
        cases hberr <;>
        simp [hperm, hc, hs, afterBackendCall, replies, NIP_47_ERROR_INTERNAL]

/-- C5 at the second element of scenario S4, whose payment the backend
refuses with `no route`. -/
theorem C5_backend_error_reply_witness :
    (replies (afterBackendCall (effectsOf 1
        (HandleMultiPayInvoiceEvent exampleEnv (fun _ => allowOutcomes) [1, 1, 0, 2, 1]
          exampleRequest exampleRequestEvent exampleApp none
          ⟨[⟨"a", "LNBC10N1OK", none⟩, ⟨"b", "lnbc20n1fail", none⟩,
            ⟨"c", "zzz", none⟩]⟩)))).map Prod.fst =
      [ { ResultType := exampleRequest.Method,
          Error := some { Code := "INTERNAL", Message := "no route" },
          Result := none } ] :=
  C5_backend_error_reply exampleEnv (fun _ => allowOutcomes) [1, 1, 0, 2, 1] exampleRequest
    exampleRequestEvent exampleApp
    ⟨[⟨"a", "LNBC10N1OK", none⟩, ⟨"b", "lnbc20n1fail", none⟩, ⟨"c", "zzz", none⟩]⟩ 1
    "no route"
    ⟨{ App := exampleApp, RequestEventId := 7, PaymentRequest := "lnbc20n1fail",
       Amount := 2, Preimage := none }, by decide, rfl⟩
    ⟨"lnbc20n1fail", by decide, rfl⟩


/-! ## Payment records -/

/-- C6: of the Payment records the handler writes for an element, the one
inserted has no preimage, one saved carries the preimage the backend returned
for the element, and the record as last written has a preimage if and only if
`SendPaymentSync` was called for the element and reported success. -/
theorem C6_preimage_iff_backend_success (env : Env) (outcomes : Nat → Outcomes)
    (sched : List Nat) (request : Nip47Request) (requestEvent : RequestEvent) (app : App)
    (params : Nip47MultiPayInvoiceParams) (i : Nat) :
    (∀ payment ∈ creates (effectsOf i
        (HandleMultiPayInvoiceEvent env outcomes sched request requestEvent app none params)),
      payment.Preimage = none) ∧
    (∀ payment ∈ saves (effectsOf i
        (HandleMultiPayInvoiceEvent env outcomes sched request requestEvent app none params)),
      ∃ bolt11 preimage,
        bolt11 ∈ backendCalls (effectsOf i
          (HandleMultiPayInvoiceEvent env outcomes sched request requestEvent app none
            params)) ∧
        (outcomes i).sendPaymentSync bolt11 = .ok preimage ∧
        payment.Preimage = some preimage) ∧
    ((∃ payment,
        (writes (effectsOf i
          (HandleMultiPayInvoiceEvent env outcomes sched request requestEvent app none
            params))).getLast? = some payment ∧
        payment.Preimage ≠ none) ↔
      ∃ bolt11 preimage,
        bolt11 ∈ backendCalls (effectsOf i
          (HandleMultiPayInvoiceEvent env outcomes sched request requestEvent app none
            params)) ∧
        (outcomes i).sendPaymentSync bolt11 = .ok preimage) := by
  rw [effectsOf_handle]
  unfold goroutines
  cases hget : params.Invoices[i]? with
  | none => simp [creates, saves, writes, backendCalls]
  | some invoiceInfo =>
    simp only
    unfold invoiceGoroutine
    cases hdec : env.Decodepay (env.ToLower invoiceInfo.Invoice) with
    | error e => simp [hdec, creates, saves, writes, backendCalls]
    | ok paymentRequest =>
      cases hperm : (outcomes i).checkPermission paymentRequest.MSatoshi <;>
        cases hc : (outcomes i).dbCreate
          { App := app, RequestEventId := requestEvent.ID,
            PaymentRequest := env.ToLower invoiceInfo.Invoice,
            Amount := paymentAmount paymentRequest.MSatoshi, Preimage := none } <;>
        cases hs : (outcomes i).sendPaymentSync (env.ToLower invoiceInfo.Invoice) <;>
        simp [hdec, hperm, hc, hs, creates, saves, writes, backendCalls]


/-! ## Insert before the backend call -/

theorem create_mem_before_send (payment : Payment) (bolt11 : String) :
    ∀ (l before after : List Effect), l = before ++ .sendPaymentSync bolt11 :: after →
      createBeforeSend payment l = true → Effect.dbCreate payment ∈ before := by
  intro l
  induction l with
  | nil =>
    intro before after h
    simp at h
  | cons e l ih =>
    intro before after h hscan
    cases before with
    | nil =>
      simp only [List.nil_append, List.cons.injEq] at h
      rw [h.1] at hscan
      simp [createBeforeSend] at hscan
    | cons x before =>
      simp only [List.cons_append, List.cons.injEq] at h
      obtain ⟨rfl, hl⟩ := h
      cases e with
      | dbCreate created =>
        by_cases hc : created = payment
        · subst hc
          exact List.mem_cons_self _ _
        · simp only [createBeforeSend, hc, if_false] at hscan
          exact List.mem_cons_of_mem _ (ih before after hl hscan)
      | sendPaymentSync b => simp [createBeforeSend] at hscan
      | logError f m => exact List.mem_cons_of_mem _ (ih before after hl (by simpa [createBeforeSend] using hscan))
      | logInfo f m => exact List.mem_cons_of_mem _ (ih before after hl (by simpa [createBeforeSend] using hscan))
      | eventLog f m => exact List.mem_cons_of_mem _ (ih before after hl (by simpa [createBeforeSend] using hscan))
      | checkPermission m => exact List.mem_cons_of_mem _ (ih before after hl (by simpa [createBeforeSend] using hscan))
      | publishResponse r t => exact List.mem_cons_of_mem _ (ih before after hl (by simpa [createBeforeSend] using hscan))
      | dbSave p => exact List.mem_cons_of_mem _ (ih before after hl (by simpa [createBeforeSend] using hscan))

/-- A goroutine that calls the backend has inserted its Payment record
before, and the insert returned no error. -/
theorem invoiceGoroutine_send (env : Env) (o : Outcomes) (request : Nip47Request)
    (requestEvent : RequestEvent) (app : App) (invoiceInfo : Nip47MultiPayInvoiceElement)
    (bolt11 : String)
    (h : Effect.sendPaymentSync bolt11 ∈
      invoiceGoroutine env o request requestEvent app invoiceInfo) :
    ∃ payment, o.dbCreate payment = none ∧
      createBeforeSend payment
        (invoiceGoroutine env o request requestEvent app invoiceInfo) = true := by
  cases hdec : env.Decodepay (env.ToLower invoiceInfo.Invoice) with
  | error e => simp [invoiceGoroutine, hdec] at h
  | ok paymentRequest =>
    cases hc : o.dbCreate
        { App := app, RequestEventId := requestEvent.ID,
          PaymentRequest := env.ToLower invoiceInfo.Invoice,
          Amount := paymentAmount paymentRequest.MSatoshi, Preimage := none } with
    | some insertError =>
      exfalso
      cases hperm : o.checkPermission paymentRequest.MSatoshi <;>
        simp [invoiceGoroutine, hdec, hc, hperm] at h
    | none =>
      refine ⟨_, hc, ?_⟩
      cases hperm : o.checkPermission paymentRequest.MSatoshi <;>
        cases hs : o.sendPaymentSync (env.ToLower invoiceInfo.Invoice) <;>
        simp [invoiceGoroutine, hdec, hc, hperm, hs, createBeforeSend]

/-- C7: in every interleaving, a call of `SendPaymentSync` by the goroutine of
an element comes after that goroutine's `db.Create` of the element's Payment
record, and that insert returned without error; so the backend is never called
for an element without a persisted Payment row. -/
theorem C7_insert_precedes_backend_call (env : Env) (outcomes : Nat → Outcomes)
    (sched : List Nat) (request : Nip47Request) (requestEvent : RequestEvent) (app : App)
    (params : Nip47MultiPayInvoiceParams) (i : Nat) (bolt11 : String)
    (before after : List Event)
    (h : HandleMultiPayInvoiceEvent env outcomes sched request requestEvent app none params =
      before ++ ⟨some i, .sendPaymentSync bolt11⟩ :: after) :
    ∃ payment, (⟨some i, .dbCreate payment⟩ : Event) ∈ before ∧
      (outcomes i).dbCreate payment = none := by
  have hproj := congrArg (effectsOf i) h
  rw [effectsOf_handle, effectsOf_append, effectsOf_cons_same] at hproj
  have hmem : Effect.sendPaymentSync bolt11 ∈
      goroutines env outcomes request requestEvent app params i := by
    rw [hproj]
    simp
  unfold goroutines at hproj hmem
  cases hget : params.Invoices[i]? with
  | none => simp [hget] at hmem
  | some invoiceInfo =>
    simp only [hget] at hproj hmem
    obtain ⟨payment, hok, hscan⟩ := invoiceGoroutine_send _ _ _ _ _ _ _ hmem
    exact ⟨payment,
      (mem_effectsOf i _ before).1 (create_mem_before_send payment bolt11 _ _ _ hproj hscan),
      hok⟩

/-- C7 at scenario S4 in an interleaving where the backend call of the first
element comes fifth. -/
theorem C7_insert_precedes_backend_call_witness :
    ∃ payment,
      (⟨some 0, .dbCreate payment⟩ : Event) ∈
        [ (⟨some 1, .checkPermission 2000⟩ : Event),
          ⟨some 0, .checkPermission 1000⟩,
          ⟨some 0, .dbCreate
            { App := exampleApp, RequestEventId := 7, PaymentRequest := "lnbc10n1ok",
              Amount := 1, Preimage := none }⟩,
          ⟨some 0, .logInfo
            [("eventId", .str "ev1"), ("appId", .uint 3), ("bolt11", .str "lnbc10n1ok")]
            "Sending payment"⟩ ] ∧
      (allowOutcomes).dbCreate payment = none :=
  C7_insert_precedes_backend_call exampleEnv (fun _ => allowOutcomes) [1, 0, 0, 0, 0]
    exampleRequest exampleRequestEvent exampleApp
    ⟨[⟨"a", "LNBC10N1OK", none⟩, ⟨"b", "lnbc20n1fail", none⟩]⟩ 0 "lnbc10n1ok" _ _
    (by decide :
      HandleMultiPayInvoiceEvent exampleEnv (fun _ => allowOutcomes) [1, 0, 0, 0, 0]
        exampleRequest exampleRequestEvent exampleApp none
        ⟨[⟨"a", "LNBC10N1OK", none⟩, ⟨"b", "lnbc20n1fail", none⟩]⟩ =
      [ (⟨some 1, .checkPermission 2000⟩ : Event),
        ⟨some 0, .checkPermission 1000⟩,
        ⟨some 0, .dbCreate
          { App := exampleApp, RequestEventId := 7, PaymentRequest := "lnbc10n1ok",
            Amount := 1, Preimage := none }⟩,
        ⟨some 0, .logInfo
          [("eventId", .str "ev1"), ("appId", .uint 3), ("bolt11", .str "lnbc10n1ok")]
          "Sending payment"⟩ ] ++
      ⟨some 0, .sendPaymentSync "lnbc10n1ok"⟩ ::
      [ ⟨some 0, .dbSave
          { App := exampleApp, RequestEventId := 7, PaymentRequest := "lnbc10n1ok",
            Amount := 1, Preimage := some "abcd" }⟩,
        ⟨some 0, .eventLog "nwc_payment_succeeded"
          [("multi", .bool true), ("amount", .int 1)]⟩,
        ⟨some 0, .publishResponse
          { ResultType := "multi_pay_invoice", Error := none,
            Result := some { Preimage := "abcd" } } [["d", "a"]]⟩,
        ⟨some 1, .dbCreate
          { App := exampleApp, RequestEventId := 7, PaymentRequest := "lnbc20n1fail",
            Amount := 2, Preimage := none }⟩,
        ⟨some 1, .logInfo
          [("eventId", .str "ev1"), ("appId", .uint 3), ("bolt11", .str "lnbc20n1fail")]
          "Sending payment"⟩,
        ⟨some 1, .sendPaymentSync "lnbc20n1fail"⟩,
        ⟨some 1, .logInfo
          [("eventId", .str "ev1"), ("appId", .uint 3), ("bolt11", .str "lnbc20n1fail")]
          "Failed to send payment: no route"⟩,
        ⟨some 1, .eventLog "nwc_payment_failed"
          [("error", .str "no route"), ("multi", .bool true),
           ("invoice", .str "lnbc20n1fail"), ("amount", .int 2)]⟩,
        ⟨some 1, .publishResponse
          { ResultType := "multi_pay_invoice",
            Error := some { Code := "INTERNAL", Message := "no route" },
            Result := none } [["d", "b"]]⟩ ])

/-! ## Insert failure -/

/-- C8: evaluation at a request with one decodable element whose permission
check is denied and whose Payment insert fails: the insert returns an error and
yet a reply, the denial, has been published for the element. -/
theorem C8_reply_despite_insert_failure :
    denyInsertFailsOutcomes.dbCreate
        { App := exampleApp, RequestEventId := 7, PaymentRequest := "lnbc10n1ok",
          Amount := 1, Preimage := none } = some "database is locked" ∧
    effectsOf 0
        (HandleMultiPayInvoiceEvent exampleEnv (fun _ => denyInsertFailsOutcomes) []
          exampleRequest exampleRequestEvent exampleApp none
          ⟨[⟨"a", "lnbc10n1ok", none⟩]⟩) =
      [ .checkPermission 1000,
        .publishResponse quotaExceeded [["d", "a"]],
        .dbCreate
          { App := exampleApp, RequestEventId := 7, PaymentRequest := "lnbc10n1ok",
            Amount := 1, Preimage := none },
        .logError
          [("eventId", .str "ev1"), ("paymentRequest", .str "lnbc10n1ok"),
           ("invoiceId", .str "a")]
          "Failed to process event: database is locked" ] := by
  decide


/-! ## Every element is answered -/

/-- C9: when the params unmarshal, the handler returns a trace in which, for
every element of the request, a reply has been published for the element or
the insert of the element's Payment record has failed. -/
theorem C9_reply_or_insert_failure (env : Env) (outcomes : Nat → Outcomes)
    (sched : List Nat) (request : Nip47Request) (requestEvent : RequestEvent) (app : App)
    (params : Nip47MultiPayInvoiceParams) (i : Nat) (hi : i < params.Invoices.length) :
    (∃ resp tags, (⟨some i, .publishResponse resp tags⟩ : Event) ∈
      HandleMultiPayInvoiceEvent env outcomes sched request requestEvent app none params) ∨
    (∃ payment insertError,
      (⟨some i, .dbCreate payment⟩ : Event) ∈
        HandleMultiPayInvoiceEvent env outcomes sched request requestEvent app none params ∧
      (outcomes i).dbCreate payment = some insertError) := by
  have hget : params.Invoices[i]? = some params.Invoices[i] := List.getElem?_eq_getElem hi
  simp only [← mem_effectsOf, effectsOf_handle_get _ _ _ _ _ _ _ _ _ hget]
  generalize params.Invoices[i] = invoiceInfo
  cases hdec : env.Decodepay (env.ToLower invoiceInfo.Invoice) with
  | error e =>
    left
    simp [invoiceGoroutine, hdec]
  | ok paymentRequest =>
    cases hc : (outcomes i).dbCreate
        { App := app, RequestEventId := requestEvent.ID,
          PaymentRequest := env.ToLower invoiceInfo.Invoice,
          Amount := paymentAmount paymentRequest.MSatoshi, Preimage := none } with
    | some insertError =>
      right
      refine ⟨_, insertError, ?_, hc⟩
      simp [invoiceGoroutine, hdec, hc]
    | none =>
      left
      cases hs : (outcomes i).sendPaymentSync (env.ToLower invoiceInfo.Invoice) with
      | error err =>
        refine ⟨{ ResultType := request.Method,
                  Error := some { Code := NIP_47_ERROR_INTERNAL, Message := err },
                  Result := none },
          [["d", if invoiceInfo.Id = "" then paymentRequest.PaymentHash
                 else invoiceInfo.Id]], ?_⟩
        simp [invoiceGoroutine, hdec, hc, hs]
      | ok preimage =>
        refine ⟨{ ResultType := request.Method, Error := none,
                  Result := some { Preimage := preimage } },
          [["d", if invoiceInfo.Id = "" then paymentRequest.PaymentHash
                 else invoiceInfo.Id]], ?_⟩
        simp [invoiceGoroutine, hdec, hc, hs]

/-- C9 at the second element of scenario S4. -/
theorem C9_reply_or_insert_failure_witness :
    (∃ resp tags, (⟨some 1, .publishResponse resp tags⟩ : Event) ∈
      HandleMultiPayInvoiceEvent exampleEnv (fun _ => allowOutcomes) [2, 1, 0, 1]
        exampleRequest exampleRequestEvent exampleApp none
        ⟨[⟨"a", "LNBC10N1OK", none⟩, ⟨"b", "lnbc20n1fail", none⟩, ⟨"c", "zzz", none⟩]⟩) ∨
    (∃ payment insertError,
      (⟨some 1, .dbCreate payment⟩ : Event) ∈
        HandleMultiPayInvoiceEvent exampleEnv (fun _ => allowOutcomes) [2, 1, 0, 1]
          exampleRequest exampleRequestEvent exampleApp none
          ⟨[⟨"a", "LNBC10N1OK", none⟩, ⟨"b", "lnbc20n1fail", none⟩,
            ⟨"c", "zzz", none⟩]⟩ ∧
      allowOutcomes.dbCreate payment = some insertError) :=
  C9_reply_or_insert_failure exampleEnv (fun _ => allowOutcomes) [2, 1, 0, 1]
    exampleRequest exampleRequestEvent exampleApp
    ⟨[⟨"a", "LNBC10N1OK", none⟩, ⟨"b", "lnbc20n1fail", none⟩, ⟨"c", "zzz", none⟩]⟩ 1
    (by decide)

/-! ## Failures are per element -/

/-- The goroutine index of every event of a scheduled run is below the
number of goroutines. -/
theorem goroutine_lt_of_mem_runSchedule (n : Nat) (sched : List Nat) :
    ∀ (pending : Nat → List Effect), (∀ k, n ≤ k → pending k = []) →
      ∀ ev : Event, ev ∈ runSchedule n pending sched →
        ∃ i, i < n ∧ ev.goroutine = some i := by
  induction sched with
  | nil =>
    intro pending _ ev h
    rw [runSchedule_nil] at h
    simp only [List.mem_flatMap, List.mem_map, List.mem_range] at h
    obtain ⟨i, hi, e, _, rfl⟩ := h
    exact ⟨i, hi, rfl⟩
  | cons j sched ih =>
    intro pending hp ev h
    unfold runSchedule at h
    split at h
    · exact ih pending hp ev h
    · rename_i e rest hj
      have hjn : j < n := by
        by_contra hcon
        rw [hp j (by omega)] at hj
        cases hj
      rcases List.mem_cons.1 h with rfl | h
      · exact ⟨j, hjn, rfl⟩
      · refine ih _ ?_ ev h
        intro k hk
        have hkj : k ≠ j := by omega
        simp [hkj, hp k hk]

/-- The trace of a request with a single element consists of the effects of
that element's goroutine, in program order, whatever the schedule. -/
theorem handle_singleton (env : Env) (o : Outcomes) (sched : List Nat)
    (request : Nip47Request) (requestEvent : RequestEvent) (app : App)
    (invoiceInfo : Nip47MultiPayInvoiceElement) :
    (HandleMultiPayInvoiceEvent env (fun _ => o) sched request requestEvent app none
        ⟨[invoiceInfo]⟩).map Event.effect =
      invoiceGoroutine env o request requestEvent app invoiceInfo := by
  have hall : ∀ ev ∈ HandleMultiPayInvoiceEvent env (fun _ => o) sched request requestEvent
      app none ⟨[invoiceInfo]⟩, (ev.goroutine == some 0) = true := by
    intro ev hev
    obtain ⟨i, hi, hg⟩ := goroutine_lt_of_mem_runSchedule _ sched _
      (fun k hk => goroutines_of_le env (fun _ => o) request requestEvent app
        ⟨[invoiceInfo]⟩ k hk) ev hev
    have h0 : i = 0 := by
      simp at hi
      exact hi
    simp [hg, h0]
  have hproj := effectsOf_handle_get env (fun _ => o) sched request requestEvent app
    ⟨[invoiceInfo]⟩ 0 invoiceInfo rfl
  unfold effectsOf at hproj
  rw [List.filter_eq_self.2 hall] at hproj
  exact hproj

/-- The effects of a trace are, up to their order, those of the goroutines
one after the other. -/
theorem handle_perm (env : Env) (outcomes : Nat → Outcomes) (sched : List Nat)
    (request : Nip47Request) (requestEvent : RequestEvent) (app : App)
    (params : Nip47MultiPayInvoiceParams) :
    ((HandleMultiPayInvoiceEvent env outcomes sched request requestEvent app none
        params).map Event.effect).Perm
      ((List.range params.Invoices.length).flatMap
        (goroutines env outcomes request requestEvent app params)) := by
  have h := (runSchedule_perm params.Invoices.length sched
    (goroutines env outcomes request requestEvent app params)
    (fun k hk => goroutines_of_le env outcomes request requestEvent app params k hk)).map
      Event.effect
  have hmap : (List.map Event.effect
      ((List.range params.Invoices.length).flatMap fun k =>
        (goroutines env outcomes request requestEvent app params k).map (Event.mk (some k)))) =
      (List.range params.Invoices.length).flatMap
        (goroutines env outcomes request requestEvent app params) := by
    rw [List.map_flatMap]
    apply List.flatMap_congr
    intro k _
    simp [Function.comp_def]
  rw [hmap] at h
  exact h

/-- C10: handling a request is handling its elements one by one. In every
interleaving the events of an element (its replies, its Payment writes, its
backend call) are those of a request made of this element alone with the same
outcomes, whatever the other elements and their outcomes are; and the effects
of the whole trace are, up to their order, the union of the effects of the
elements handled alone. -/
theorem C10_failures_are_per_element (env : Env) (outcomes : Nat → Outcomes)
    (sched : List Nat) (alone : Nat → List Nat) (request : Nip47Request)
    (requestEvent : RequestEvent) (app : App) (params : Nip47MultiPayInvoiceParams) :
    (∀ i invoiceInfo, params.Invoices[i]? = some invoiceInfo →
      effectsOf i
          (HandleMultiPayInvoiceEvent env outcomes sched request requestEvent app none
            params) =
        (HandleMultiPayInvoiceEvent env (fun _ => outcomes i) (alone i) request requestEvent
          app none ⟨[invoiceInfo]⟩).map Event.effect) ∧
    ((HandleMultiPayInvoiceEvent env outcomes sched request requestEvent app none
        params).map Event.effect).Perm
      ((List.range params.Invoices.length).flatMap fun i =>
        match params.Invoices[i]? with
        | some invoiceInfo =>
          (HandleMultiPayInvoiceEvent env (fun _ => outcomes i) (alone i) request
            requestEvent app none ⟨[invoiceInfo]⟩).map Event.effect
        | none => []) := by
  constructor
  · intro i invoiceInfo hget
    rw [effectsOf_handle_get _ _ _ _ _ _ _ _ _ hget, handle_singleton]
  · have h := handle_perm env outcomes sched request requestEvent app params
    have hcongr : (List.range params.Invoices.length).flatMap
        (goroutines env outcomes request requestEvent app params) =
        (List.range params.Invoices.length).flatMap fun i =>
          match params.Invoices[i]? with
          | some invoiceInfo =>
            (HandleMultiPayInvoiceEvent env (fun _ => outcomes i) (alone i) request
              requestEvent app none ⟨[invoiceInfo]⟩).map Event.effect
          | none => [] := by
      apply List.flatMap_congr
      intro i _
      unfold goroutines
      cases params.Invoices[i]? with
      | none => rfl
      | some invoiceInfo => simp only [handle_singleton]
    rw [hcongr] at h
    exact h


/-- C10 at scenario S4 with the first element denied: the events of the second
element are those of a request made of it alone. -/
theorem C10_failures_are_per_element_witness :
    effectsOf 1
        (HandleMultiPayInvoiceEvent exampleEnv
          (fun i => if i = 0 then denyOutcomes else allowOutcomes) [2, 1, 0, 0, 1]
          exampleRequest exampleRequestEvent exampleApp none
          ⟨[⟨"a", "LNBC10N1OK", none⟩, ⟨"b", "lnbc20n1fail", none⟩,
            ⟨"c", "zzz", none⟩]⟩) =
      (HandleMultiPayInvoiceEvent exampleEnv
        (fun _ => (fun i => if i = 0 then denyOutcomes else allowOutcomes) 1) [0, 0]
        exampleRequest exampleRequestEvent exampleApp none
        ⟨[⟨"b", "lnbc20n1fail", none⟩]⟩).map Event.effect :=
  (C10_failures_are_per_element exampleEnv
    (fun i => if i = 0 then denyOutcomes else allowOutcomes) [2, 1, 0, 0, 1]
    (fun _ => [0, 0]) exampleRequest exampleRequestEvent exampleApp
    ⟨[⟨"a", "LNBC10N1OK", none⟩, ⟨"b", "lnbc20n1fail", none⟩, ⟨"c", "zzz", none⟩]⟩).1 1
    ⟨"b", "lnbc20n1fail", none⟩ (by decide)

/-! ## The amount checked and recorded -/

/-- C11, as stated, fails at an element with a zero-amount invoice and an
`amount` param of 5000 msat: the contract gives the element 5000 msat, the
handler passes 0 to the permission check and records the Payment amount 0. -/
theorem C11_amount_param_is_ignored :
    specMsats { PaymentHash := "hash0", MSatoshi := 0 } ⟨"z", "lnbc1zero", some 5000⟩ = 5000 ∧
    permissionChecks (effectsOf 0
        (HandleMultiPayInvoiceEvent zeroAmountEnv (fun _ => allowOutcomes) [] exampleRequest
          exampleRequestEvent exampleApp none ⟨[⟨"z", "lnbc1zero", some 5000⟩]⟩)) = [0] ∧
    (creates (effectsOf 0
        (HandleMultiPayInvoiceEvent zeroAmountEnv (fun _ => allowOutcomes) [] exampleRequest
          exampleRequestEvent exampleApp none ⟨[⟨"z", "lnbc1zero", some 5000⟩]⟩))).map
      Payment.Amount = [0] := by
  decide

/-- For an `int64` amount that is not negative, `paymentAmount` is the
quotient by 1000. -/
theorem paymentAmount_of_nonneg (msats : Int) (h0 : 0 ≤ msats) (h63 : msats < 2 ^ 63) :
    (paymentAmount msats : Int) = msats / 1000 := by
  unfold paymentAmount
  have hdiv : Int.tdiv msats 1000 = msats / 1000 := Int.tdiv_eq_ediv h0 (by norm_num)
  rw [hdiv]
  have hq0 : 0 ≤ msats / 1000 := Int.ediv_nonneg h0 (by norm_num)
  have hq : msats / 1000 < 2 ^ 64 := by
    have : msats / 1000 ≤ msats := Int.ediv_le_self _ h0
    omega
  rw [Int.emod_eq_of_lt hq0 hq, Int.toNat_of_nonneg hq0]

/-- C11, amended: for every element whose invoice decodes, the amount passed to
the permission check is the amount of the decoded invoice and the Payment
amount recorded is that amount divided by 1000 (as a `uint`), whatever the
`amount` param of the element is: the goroutine does not read the param. -/
theorem C11_amount_is_invoice_amount (env : Env) (outcomes : Nat → Outcomes)
    (sched : List Nat) (request : Nip47Request) (requestEvent : RequestEvent) (app : App)
    (params : Nip47MultiPayInvoiceParams) (i : Nat)
    (invoiceInfo : Nip47MultiPayInvoiceElement) (paymentRequest : Bolt11)
    (hget : params.Invoices[i]? = some invoiceInfo)
    (hdec : env.Decodepay (env.ToLower invoiceInfo.Invoice) = .ok paymentRequest) :
    permissionChecks (effectsOf i
        (HandleMultiPayInvoiceEvent env outcomes sched request requestEvent app none
          params)) = [paymentRequest.MSatoshi] ∧
    (creates (effectsOf i
        (HandleMultiPayInvoiceEvent env outcomes sched request requestEvent app none
          params))).map Payment.Amount = [paymentAmount paymentRequest.MSatoshi] ∧
    (0 ≤ paymentRequest.MSatoshi → paymentRequest.MSatoshi < 2 ^ 63 →
      (paymentAmount paymentRequest.MSatoshi : Int) = paymentRequest.MSatoshi / 1000) ∧
    (∀ amount, invoiceGoroutine env (outcomes i) request requestEvent app
        { invoiceInfo with Amount := amount } =
      invoiceGoroutine env (outcomes i) request requestEvent app invoiceInfo) := by
  rw [effectsOf_handle_get _ _ _ _ _ _ _ _ _ hget]
  refine ⟨?_, ?_, paymentAmount_of_nonneg _, fun _ => rfl⟩
  · cases hperm : (outcomes i).checkPermission paymentRequest.MSatoshi <;>
      cases hc : (outcomes i).dbCreate
        { App := app, RequestEventId := requestEvent.ID,
          PaymentRequest := env.ToLower invoiceInfo.Invoice,
          Amount := paymentAmount paymentRequest.MSatoshi, Preimage := none } <;>
      cases hs : (outcomes i).sendPaymentSync (env.ToLower invoiceInfo.Invoice) <;>
      simp [invoiceGoroutine, hdec, hperm, hc, hs, permissionChecks]
  · cases hperm : (outcomes i).checkPermission paymentRequest.MSatoshi <;>
      cases hc : (outcomes i).dbCreate
        { App := app, RequestEventId := requestEvent.ID,
          PaymentRequest := env.ToLower invoiceInfo.Invoice,
          Amount := paymentAmount paymentRequest.MSatoshi, Preimage := none } <;>
      cases hs : (outcomes i).sendPaymentSync (env.ToLower invoiceInfo.Invoice) <;>
      simp [invoiceGoroutine, hdec, hperm, hc, hs, creates]

/-- C11, amended, at the first element of scenario S4 (1000 msat, recorded as
1 sat). -/
theorem C11_amount_is_invoice_amount_witness :
    permissionChecks (effectsOf 0
        (HandleMultiPayInvoiceEvent exampleEnv (fun _ => allowOutcomes) [1, 0, 2]
          exampleRequest exampleRequestEvent exampleApp none
          ⟨[⟨"a", "LNBC10N1OK", some 7000⟩, ⟨"b", "lnbc20n1fail", none⟩,
            ⟨"c", "zzz", none⟩]⟩)) = [(1000 : Int)] ∧
    (creates (effectsOf 0
        (HandleMultiPayInvoiceEvent exampleEnv (fun _ => allowOutcomes) [1, 0, 2]
          exampleRequest exampleRequestEvent exampleApp none
          ⟨[⟨"a", "LNBC10N1OK", some 7000⟩, ⟨"b", "lnbc20n1fail", none⟩,
            ⟨"c", "zzz", none⟩]⟩))).map Payment.Amount = [paymentAmount 1000] :=
  have h := C11_amount_is_invoice_amount exampleEnv (fun _ => allowOutcomes) [1, 0, 2]
    exampleRequest exampleRequestEvent exampleApp
    ⟨[⟨"a", "LNBC10N1OK", some 7000⟩, ⟨"b", "lnbc20n1fail", none⟩, ⟨"c", "zzz", none⟩]⟩ 0
    ⟨"a", "LNBC10N1OK", some 7000⟩ { PaymentHash := "hash1", MSatoshi := 1000 }
    (by decide) (by rfl)
  ⟨h.1, h.2.1⟩

/-! ## Backend success -/

/-- C12: for every element for which `SendPaymentSync` returns the preimage
`preimage` without error, the handler publishes a reply with the request's
method as result type, no error and the result preimage `preimage`; the
outcome of `db.Save` plays no part, the trace is the same whatever `Save`
returns. -/
theorem C12_success_reply (env : Env) (outcomes : Nat → Outcomes) (sched : List Nat)
    (request : Nip47Request) (requestEvent : RequestEvent) (app : App)
    (params : Nip47MultiPayInvoiceParams) (i : Nat) (preimage : String)
    (hsend : ∃ bolt11,
      (⟨some i, .sendPaymentSync bolt11⟩ : Event) ∈
        HandleMultiPayInvoiceEvent env outcomes sched request requestEvent app none params ∧
      (outcomes i).sendPaymentSync bolt11 = .ok preimage) :
    (∃ tags,
      (⟨some i, .publishResponse
          { ResultType := request.Method, Error := none,
            Result := some { Preimage := preimage } } tags⟩ : Event) ∈
        HandleMultiPayInvoiceEvent env outcomes sched request requestEvent app none params) ∧
    (∀ saveResults : Nat → Payment → Option String,
      HandleMultiPayInvoiceEvent env
          (fun k => { outcomes k with dbSave := saveResults k }) sched request requestEvent
          app none params =
        HandleMultiPayInvoiceEvent env outcomes sched request requestEvent app none
          params) := by
  refine ⟨?_, fun _ => rfl⟩
  obtain ⟨bolt11, hb, hbok⟩ := hsend
  simp only [← mem_effectsOf, effectsOf_handle] at hb ⊢
  unfold goroutines at hb ⊢
  cases hget : params.Invoices[i]? with
  | none => simp [hget] at hb
  | some invoiceInfo =>
    simp only [hget] at hb ⊢
    unfold invoiceGoroutine at hb ⊢
    cases hdec : env.Decodepay (env.ToLower invoiceInfo.Invoice) with
    | error e => simp [hdec] at hb
    | ok paymentRequest =>
      simp only [hdec] at hb ⊢
      refine ⟨[["d", if invoiceInfo.Id = "" then paymentRequest.PaymentHash
                     else invoiceInfo.Id]], ?_⟩
      cases hperm : (outcomes i).checkPermission paymentRequest.MSatoshi <;>
        cases hc : (outcomes i).dbCreate
          { App := app, RequestEventId := requestEvent.ID,
            PaymentRequest := env.ToLower invoiceInfo.Invoice,
            Amount := paymentAmount paymentRequest.MSatoshi, Preimage := none } <;>
        cases hs : (outcomes i).sendPaymentSync (env.ToLower invoiceInfo.Invoice) <;>
        simp [hperm, hc, hs] at hb <;>
        subst hb <;>
        rw [hs] at hbok <;>
        cases hbok <;>
        simp [hperm, hc, hs]

/-- C12 at a request whose element is paid while the `db.Save` of the
updated Payment fails. -/
theorem C12_success_reply_witness :
    ∃ tags,
      (⟨some 0, .publishResponse
          { ResultType := exampleRequest.Method, Error := none,
            Result := some { Preimage := "abcd" } } tags⟩ : Event) ∈
        HandleMultiPayInvoiceEvent exampleEnv (fun _ => saveFailsOutcomes) [0, 0]
          exampleRequest exampleRequestEvent exampleApp none
          ⟨[⟨"a", "lnbc10n1ok", none⟩]⟩ :=
  (C12_success_reply exampleEnv (fun _ => saveFailsOutcomes) [0, 0] exampleRequest
    exampleRequestEvent exampleApp ⟨[⟨"a", "lnbc10n1ok", none⟩]⟩ 0 "abcd"
    ⟨"lnbc10n1ok", by decide, rfl⟩).1

/-! ## The session guard -/

/-- C13: for every handler `next` and every exchange, the handler made by
`validateUserMiddleware` answers 401 without content, returns nil and leaves
`next` out (the outcome is the same for every `next`) when the value of the
session under `authenticated` is not `true`, and otherwise returns exactly
what `next` returns; `isUnlocked` holds if and only if that value is `true`. -/
theorem C13_validateUserMiddleware (next : HandlerFunc) (st : HttpState) :
    ((sessionGet "session" st.c).Values.lookup "authenticated" ≠ some (.bool true) →
      validateUserMiddleware next st =
        ({ st with c := { st.c with response := some { Status := 401, Body := none } } },
          none)) ∧
    ((sessionGet "session" st.c).Values.lookup "authenticated" = some (.bool true) →
      validateUserMiddleware next st = next st) ∧
    (isUnlocked st.c = true ↔
      (sessionGet "session" st.c).Values.lookup "authenticated" = some (.bool true)) := by
  refine ⟨?_, ?_, ?_⟩
  · intro h
    have hu : isUnlocked st.c = false := by
      simp only [isUnlocked, sessionCookieName, sessionCookieAuthKey, decide_eq_false_iff_not]
      exact h
    simp [validateUserMiddleware, hu, NoContent, StatusUnauthorized]
  · intro h
    have hu : isUnlocked st.c = true := by
      simp only [isUnlocked, sessionCookieName, sessionCookieAuthKey, decide_eq_true_eq]
      exact h
    simp [validateUserMiddleware, hu]
  · simp only [isUnlocked, sessionCookieName, sessionCookieAuthKey, decide_eq_true_eq]

/-- C13 at an exchange without a session: the guard answers 401 and the
handler behind it does not run. -/
theorem C13_validateUserMiddleware_witness :
    validateUserMiddleware exampleNext (lockedState "x") =
      ({ lockedState "x" with
          c := { (lockedState "x").c with response := some { Status := 401, Body := none } } },
        none) :=
  (C13_validateUserMiddleware exampleNext (lockedState "x")).1 (by decide)

/-! ## Unlocking -/

/-- After `saveSessionCookie` the session of the exchange holds
`authenticated = true`, whether saving the cookie succeeds or not. -/
theorem isUnlocked_saveSessionCookie (env : HttpEnv) (st : HttpState) :
    isUnlocked (saveSessionCookie env st).1.c = true := by
  unfold saveSessionCookie
  simp only []
  split <;>
    simp [isUnlocked, sessionGet, putSession, setValue, sessionCookieName,
      sessionCookieAuthKey, List.lookup]

/-- C14: for an unlock request whose body binds, a rejected password is
answered with 401 and the message `Invalid password`, the sessions and the
cookies of the exchange are left as they were and no event is logged; so the
session is changed, and turns from locked to unlocked, only if
`CheckUnlockPassword` accepts the password; and `saveSessionCookie` is what
sets `authenticated = true`. -/
theorem C14_unlockHandler (env : HttpEnv) (st : HttpState) (unlockRequest : UnlockRequest)
    (hbind : env.Bind st.c.body = .ok unlockRequest) :
    (env.CheckUnlockPassword unlockRequest.UnlockPassword = false →
      (unlockHandler env st).1.c.response =
        some { Status := 401, Body := some { Message := "Invalid password" } } ∧
      (unlockHandler env st).2 = none ∧
      (unlockHandler env st).1.c.sessions = st.c.sessions ∧
      (unlockHandler env st).1.c.cookies = st.c.cookies ∧
      (unlockHandler env st).1.EventLogger = st.EventLogger) ∧
    ((unlockHandler env st).1.c.sessions ≠ st.c.sessions →
      env.CheckUnlockPassword unlockRequest.UnlockPassword = true) ∧
    (isUnlocked st.c = false → isUnlocked (unlockHandler env st).1.c = true →
      env.CheckUnlockPassword unlockRequest.UnlockPassword = true) ∧
    isUnlocked (saveSessionCookie env st).1.c = true := by
  have hrej : env.CheckUnlockPassword unlockRequest.UnlockPassword = false →
      unlockHandler env st =
        JSON StatusUnauthorized { Message := "Invalid password" } st := by
    intro h
    simp [unlockHandler, hbind, h]
  refine ⟨?_, ?_, ?_, isUnlocked_saveSessionCookie env st⟩
  · intro h
    rw [hrej h]
    simp [JSON, StatusUnauthorized]
  · intro hne
    by_contra hcon
    have h : env.CheckUnlockPassword unlockRequest.UnlockPassword = false := by
      simpa using hcon
    rw [hrej h] at hne
    exact hne rfl
  · intro hlocked hunlocked
    by_contra hcon
    have h : env.CheckUnlockPassword unlockRequest.UnlockPassword = false := by
      simpa using hcon
    rw [hrej h] at hunlocked
    have hsame : isUnlocked (JSON StatusUnauthorized { Message := "Invalid password" } st).1.c =
        isUnlocked st.c := rfl
    rw [hsame, hlocked] at hunlocked
    cases hunlocked

/-- C14 at an unlock request with a wrong password. -/
theorem C14_unlockHandler_witness :
    (unlockHandler exampleHttpEnv (lockedState "wrong")).1.c.response =
      some { Status := 401, Body := some { Message := "Invalid password" } } ∧
    (unlockHandler exampleHttpEnv (lockedState "wrong")).2 = none ∧
    (unlockHandler exampleHttpEnv (lockedState "wrong")).1.c.sessions =
      (lockedState "wrong").c.sessions ∧
    (unlockHandler exampleHttpEnv (lockedState "wrong")).1.c.cookies =
      (lockedState "wrong").c.cookies ∧
    (unlockHandler exampleHttpEnv (lockedState "wrong")).1.EventLogger =
      (lockedState "wrong").EventLogger :=
  (C14_unlockHandler exampleHttpEnv (lockedState "wrong") { UnlockPassword := "wrong" }
    (by rfl)).1 (by decide)

end Hub
